import Mathlib

/-!
Verification of the MatrixRTC session lifecycle manager
(src/matrixrtc/MatrixRTCSessionManager.ts).

Shallow embedding: the manager's mutable state (the `roomSessions` registry
and the three event-stream subscriptions) is threaded explicitly; every
handler is a pure function from the external client's current view and the
manager state to a new manager state together with a trace of observable
effects (notification emissions, log lines, session-object calls, retry
scheduling, subscribe/unsubscribe calls).  Session objects carry an
allocation id `sid` modelling JavaScript object identity; mutating a session
through its reference is modelled by replacing the registry entry with a
record of the same `sid`.
-/

namespace MatrixRTC

/-- A room, identified by its room id (models `Room` as consumed here). -/
structure Room where
  roomId : String
deriving DecidableEq, Repr

/-- A MatrixRTC session object: `sid` models JS object identity,
`memberships` the session's membership list (only its length is consumed
by the manager). -/
structure MatrixRTCSession where
  sid : Nat
  memberships : List String
deriving DecidableEq, Repr

/-- The external messaging client, as consumed by the manager:
`rooms` models `getRooms()`, `known` whether `getRoom` resolves an id,
`stateMemberships` the membership list the session layer computes for the
room's current state (used at session creation and by
`onRTCSessionMemberUpdate`). -/
structure MatrixClient where
  rooms : List Room
  known : String → Bool
  stateMemberships : String → List String

/-- `client.getRoom(roomId)`: room lookup by identifier, absent when the
client cannot resolve the id. -/
def MatrixClient.getRoom (c : MatrixClient) (rid : String) : Option Room :=
  if c.known rid then some ⟨rid⟩ else none

/-- A timeline or room-state event.  `failsFirst` / `failsRetry` model the
external decryption pipeline's outcome on the first attempt and on the
retry attempt (`isDecryptionFailure()` after `decryptEventIfNeeded`). -/
structure MatrixEvent where
  eventId : String
  etype : String
  eroomId : String
  failsFirst : Bool
  failsRetry : Bool
deriving DecidableEq, Repr

def MatrixEvent.getType (e : MatrixEvent) : String := e.etype

def MatrixEvent.getRoomId (e : MatrixEvent) : String := e.eroomId

/-- `event.isDecryptionFailure()` as observed after the decryption request
of the given attempt. -/
def MatrixEvent.isDecryptionFailure (e : MatrixEvent) (isRetry : Bool) : Bool :=
  if isRetry then e.failsRetry else e.failsFirst

/-- `EventType.CallEncryptionKeysPrefix` (the control event type). -/
def callEncryptionKeysType : String := "io.element.call.encryption_keys"

/-- `EventType.GroupCallMemberPrefix` (the membership-announcement
room-state event type). -/
def groupCallMemberType : String := "org.matrix.msc3401.call.member"

/-- The three external event streams the manager subscribes to. -/
inductive StreamKind
  | room
  | timeline
  | roomState
deriving DecidableEq, Repr

/-- Observable effects of one handler invocation. -/
inductive Effect
  | emitStarted (roomId : String) (sid : Nat)
  | emitEnded (roomId : String) (sid : Nat)
  | sessionStop (sid : Nat)
  | sessionMemberUpdate (sid : Nat)
  | sessionCallEncryption (sid : Nat) (eventId : String)
  | logWarn
  | logError
  | logInfo
  | scheduleRetry (delayMs : Nat) (eventId : String)
  | clientOn (k : StreamKind)
  | clientOff (k : StreamKind)
deriving DecidableEq, Repr

/-- The `roomSessions` map, as an association list keyed by room id. -/
abbrev Registry := List (String × MatrixRTCSession)

/-- `roomSessions.get(rid)`. -/
def lookupEntry : Registry → String → Option MatrixRTCSession
  | [], _ => none
  | (k, v) :: rest, rid => if k = rid then some v else lookupEntry rest rid

/-- `roomSessions.set(rid, s)`: inserts or replaces the entry at `rid`. -/
def setEntry : Registry → String → MatrixRTCSession → Registry
  | [], rid, s => [(rid, s)]
  | (k, v) :: rest, rid, s =>
      if k = rid then (rid, s) :: rest else (k, v) :: setEntry rest rid s

/-- The manager's mutable state: the registry, the allocation counter for
session object identities, and the three subscription flags. -/
structure ManagerState where
  roomSessions : Registry
  nextSid : Nat
  subRoom : Bool
  subTimeline : Bool
  subRoomState : Bool
deriving DecidableEq, Repr

/-- A freshly constructed manager: empty registry, nothing subscribed. -/
def initialManager : ManagerState :=
  { roomSessions := [], nextSid := 0
    subRoom := false, subTimeline := false, subRoomState := false }

/-- `MatrixRTCSession.roomSessionForRoom(client, room)`: synthesizes a fresh
session object whose memberships are computed from the room's current
state. -/
def roomSessionForRoom (c : MatrixClient) (room : Room) (sid : Nat) :
    MatrixRTCSession :=
  { sid := sid, memberships := c.stateMemberships room.roomId }

/-- `getRoomSession(room)`: the creating lookup.  When no entry exists for
the room a fresh session is synthesized and inserted; the (existing or
fresh) entry is returned.  Its trace is empty: the source body contains no
emission and no session-object call. -/
def getRoomSession (c : MatrixClient) (m : ManagerState) (room : Room) :
    MatrixRTCSession × ManagerState × List Effect :=
  match lookupEntry m.roomSessions room.roomId with
  | some s => (s, m, [])
  | none =>
      let s := roomSessionForRoom c room m.nextSid
      (s, { m with roomSessions := setEntry m.roomSessions room.roomId s
                   nextSid := m.nextSid + 1 }, [])

/-- `getActiveRoomSession(room)`: the non-creating lookup. -/
def getActiveRoomSession (m : ManagerState) (room : Room) :
    Option MatrixRTCSession :=
  lookupEntry m.roomSessions room.roomId

/-- `refreshRoom(room)`: the transition detector.  `isNewSession` is
evaluated before the creating lookup; `wasActiveAndKnown` uses the prior
membership length; `onRTCSessionMemberUpdate()` recomputes the session's
memberships from the room's current state (mutation through the object:
same `sid`, updated entry); the edge-triggered emission follows. -/
def refreshRoom (c : MatrixClient) (m : ManagerState) (room : Room) :
    ManagerState × List Effect :=
  let isNewSession := (lookupEntry m.roomSessions room.roomId).isNone
  let r := getRoomSession c m room
  let sess := r.1
  let m1 := r.2.1
  let wasActiveAndKnown := decide (sess.memberships.length > 0) && !isNewSession
  let sess2 := { sess with memberships := c.stateMemberships room.roomId }
  let m2 := { m1 with roomSessions := setEntry m1.roomSessions room.roomId sess2 }
  let nowActive := decide (sess2.memberships.length > 0)
  let emitted :=
    if wasActiveAndKnown && !nowActive then [Effect.emitEnded room.roomId sess2.sid]
    else if !wasActiveAndKnown && nowActive then [Effect.emitStarted room.roomId sess2.sid]
    else []
  (m2, Effect.sessionMemberUpdate sess.sid :: emitted)

/-- `start()`: seed the registry from every room the client already knows
(registering only sessions that already have members), then subscribe to
the three event streams; recursion over the room list. -/
def seedRooms (c : MatrixClient) : List Room → ManagerState → ManagerState
  | [], m => m
  | room :: rest, m =>
      let session := roomSessionForRoom c room m.nextSid
      let m1 := { m with nextSid := m.nextSid + 1 }
      let m2 :=
        if session.memberships.length > 0 then
          { m1 with roomSessions := setEntry m1.roomSessions room.roomId session }
        else m1
      seedRooms c rest m2

def start (c : MatrixClient) (m : ManagerState) : ManagerState × List Effect :=
  let m1 := seedRooms c c.rooms m
  ({ m1 with subRoom := true, subTimeline := true, subRoomState := true },
   [Effect.clientOn StreamKind.room, Effect.clientOn StreamKind.timeline,
    Effect.clientOn StreamKind.roomState])

/-- `stop()`: invoke `sess.stop()` on every tracked session, clear the
registry, unsubscribe from the three streams. -/
def stop (m : ManagerState) : ManagerState × List Effect :=
  ({ m with roomSessions := []
            subRoom := false, subTimeline := false, subRoomState := false },
   m.roomSessions.map (fun p => Effect.sessionStop p.2.sid) ++
     [Effect.clientOff StreamKind.room, Effect.clientOff StreamKind.timeline,
      Effect.clientOff StreamKind.roomState])

/-- `consumeCallEncryptionEvent(event, isRetry)`: the decryption gate.
Decryption failure on the first attempt logs a warning and schedules the
single 1000 ms retry; failure on the retry logs a warning and gives up;
success on a retry logs an info line; then the type filter, the room
lookup (error-logged when unresolvable) and the dispatch of the decrypted
control event to the room's session. -/
def consumeCallEncryptionEvent (c : MatrixClient) (m : ManagerState)
    (e : MatrixEvent) (isRetry : Bool) : ManagerState × List Effect :=
  if e.isDecryptionFailure isRetry then
    if !isRetry then
      (m, [Effect.logWarn, Effect.scheduleRetry 1000 e.eventId])
    else
      (m, [Effect.logWarn])
  else
    let infoLog : List Effect := if isRetry then [Effect.logInfo] else []
    if e.getType ≠ callEncryptionKeysType then (m, infoLog)
    else
      match c.getRoom e.getRoomId with
      | none => (m, infoLog ++ [Effect.logError])
      | some room =>
          let r := getRoomSession c m room
          (r.2.1, infoLog ++ [Effect.sessionCallEncryption r.1.sid e.eventId])

/-- The `onRoom` handler: a newly visible room triggers a refresh. -/
def onRoom (c : MatrixClient) (m : ManagerState) (room : Room) :
    ManagerState × List Effect :=
  refreshRoom c m room

/-- The `onRoomState` handler: resolve the room (error-logged and dropped
when unknown), then refresh only on the membership-announcement type. -/
def onRoomState (c : MatrixClient) (m : ManagerState) (e : MatrixEvent) :
    ManagerState × List Effect :=
  match c.getRoom e.getRoomId with
  | none => (m, [Effect.logError])
  | some room =>
      if e.getType = groupCallMemberType then refreshRoom c m room
      else (m, [])

/-- The whole lifetime of one timeline event: the first gate pass, and —
exactly when that pass scheduled the retry — the delayed second pass. -/
def processWithRetry (c : MatrixClient) (m : ManagerState) (e : MatrixEvent) :
    ManagerState × List Effect :=
  let r1 := consumeCallEncryptionEvent c m e false
  if Effect.scheduleRetry 1000 e.eventId ∈ r1.2 then
    let r2 := consumeCallEncryptionEvent c r1.1 e true
    (r2.1, r1.2 ++ r2.2)
  else r1

/-! ### Trace observables -/

def isEmission : Effect → Bool
  | .emitStarted _ _ => true
  | .emitEnded _ _ => true
  | _ => false

/-- Number of notifications (SessionStarted or SessionEnded) in a trace. -/
def emissionCount (tr : List Effect) : Nat := (tr.filter isEmission).length

def startedCount (tr : List Effect) : Nat :=
  (tr.filter fun eff => match eff with | .emitStarted _ _ => true | _ => false).length

def endedCount (tr : List Effect) : Nat :=
  (tr.filter fun eff => match eff with | .emitEnded _ _ => true | _ => false).length

/-- Number of `onCallEncryption` dispatches in a trace. -/
def dispatchCount (tr : List Effect) : Nat :=
  (tr.filter fun eff =>
    match eff with | .sessionCallEncryption _ _ => true | _ => false).length

/-- Number of scheduled decryption retries in a trace. -/
def retryScheduleCount (tr : List Effect) : Nat :=
  (tr.filter fun eff =>
    match eff with | .scheduleRetry _ _ => true | _ => false).length

/-- Number of session-object calls (stop, member update, call-encryption
ingestion) in a trace. -/
def sessionOpCount (tr : List Effect) : Nat :=
  (tr.filter fun eff =>
    match eff with
    | .sessionStop _ => true
    | .sessionMemberUpdate _ => true
    | .sessionCallEncryption _ _ => true
    | _ => false).length

end MatrixRTC

namespace MatrixRTC

/-! ### Registry lemmas -/

theorem lookupEntry_setEntry (l : Registry) (k : String) (v : MatrixRTCSession)
    (rid : String) :
    lookupEntry (setEntry l k v) rid = if k = rid then some v else lookupEntry l rid := by
  induction l with
  | nil => by_cases hr : k = rid <;> simp [setEntry, lookupEntry, hr]
  | cons p rest ih =>
      obtain ⟨k1, v1⟩ := p
      by_cases hk : k1 = k
      · subst hk
        by_cases hr : k1 = rid <;> simp [setEntry, lookupEntry, hr]
      · by_cases hr : k1 = rid
        · subst hr
          have hkr : ¬ k = k1 := fun h => hk h.symm
          simp [setEntry, lookupEntry, hk, hkr]
        · simp [setEntry, lookupEntry, hk, hr, ih]

/-- Claim C1: on every refresh, with `wasActive` evaluated before the update
(prior membership length, and the room already registered) and `isActive`
evaluated after `onRTCSessionMemberUpdate`, SessionEnded is emitted exactly
when active turned inactive, SessionStarted exactly when inactive turned
active, and nothing otherwise — at most one notification per refresh. -/
theorem refreshRoom_edge_triggered (c : MatrixClient) (m : ManagerState) (room : Room) :
    (endedCount (refreshRoom c m room).2 =
      if (match lookupEntry m.roomSessions room.roomId with
          | some s => decide (s.memberships.length > 0)
          | none => false)
         && !(decide ((c.stateMemberships room.roomId).length > 0)) then 1 else 0) ∧
    (startedCount (refreshRoom c m room).2 =
      if !(match lookupEntry m.roomSessions room.roomId with
           | some s => decide (s.memberships.length > 0)
           | none => false)
         && decide ((c.stateMemberships room.roomId).length > 0) then 1 else 0) ∧
    emissionCount (refreshRoom c m room).2 =
      startedCount (refreshRoom c m room).2 + endedCount (refreshRoom c m room).2 ∧
    emissionCount (refreshRoom c m room).2 ≤ 1 := by
  cases hl : lookupEntry m.roomSessions room.roomId with
  | none =>
      by_cases hnow : (c.stateMemberships room.roomId).length > 0 <;>
        simp [refreshRoom, getRoomSession, hl, hnow, roomSessionForRoom,
          startedCount, endedCount, emissionCount, isEmission]
  | some s =>
      by_cases hwas : s.memberships.length > 0 <;>
        by_cases hnow : (c.stateMemberships room.roomId).length > 0 <;>
          simp [refreshRoom, getRoomSession, hl, hwas, hnow,
            startedCount, endedCount, emissionCount, isEmission]

end MatrixRTC

namespace MatrixRTC

/-- Claim C10: the creating lookup has an empty effect trace (no
notification, no session-object call) and its only state effect is the
insertion of a fresh entry when one is absent. -/
theorem getRoomSession_frame (c : MatrixClient) (m : ManagerState) (room : Room) :
    (getRoomSession c m room).2.2 = [] ∧
    emissionCount (getRoomSession c m room).2.2 = 0 ∧
    sessionOpCount (getRoomSession c m room).2.2 = 0 ∧
    (getRoomSession c m room).2.1.subRoom = m.subRoom ∧
    (getRoomSession c m room).2.1.subTimeline = m.subTimeline ∧
    (getRoomSession c m room).2.1.subRoomState = m.subRoomState ∧
    (getRoomSession c m room).2.1.roomSessions =
      (match lookupEntry m.roomSessions room.roomId with
       | some _ => m.roomSessions
       | none => setEntry m.roomSessions room.roomId
           (roomSessionForRoom c room m.nextSid)) := by
  cases hl : lookupEntry m.roomSessions room.roomId <;>
    simp [getRoomSession, hl, emissionCount, sessionOpCount, isEmission]

/-! ### Identity stability (claim C2) -/

/-- An operation the manager can serve while running (between `start` and
`stop`): a creating lookup or one of the three event-handler invocations,
each against the client's then-current view. -/
inductive RunOp
  | getSession (c : MatrixClient) (room : Room)
  | roomAppeared (c : MatrixClient) (room : Room)
  | roomStateEvent (c : MatrixClient) (e : MatrixEvent)
  | timelineEvent (c : MatrixClient) (e : MatrixEvent) (isRetry : Bool)

def applyOp (m : ManagerState) : RunOp → ManagerState
  | .getSession c room => (getRoomSession c m room).2.1
  | .roomAppeared c room => (onRoom c m room).1
  | .roomStateEvent c e => (onRoomState c m e).1
  | .timelineEvent c e r => (consumeCallEncryptionEvent c m e r).1

def runOps (m : ManagerState) : List RunOp → ManagerState
  | [] => m
  | op :: rest => runOps (applyOp m op) rest

theorem lookupEntry_after_getRoomSession (c : MatrixClient) (m : ManagerState)
    (room : Room) :
    lookupEntry (getRoomSession c m room).2.1.roomSessions room.roomId =
      some (getRoomSession c m room).1 := by
  cases hl : lookupEntry m.roomSessions room.roomId <;>
    simp [getRoomSession, hl, lookupEntry_setEntry]

theorem sid_preserved_getRoomSession (c : MatrixClient) (m : ManagerState)
    (room : Room) (rid : String) (s : MatrixRTCSession)
    (h : lookupEntry m.roomSessions rid = some s) :
    ∃ s2, lookupEntry (getRoomSession c m room).2.1.roomSessions rid = some s2 ∧
      s2.sid = s.sid := by
  cases hl : lookupEntry m.roomSessions room.roomId with
  | some t => exact ⟨s, by simp [getRoomSession, hl, h], rfl⟩
  | none =>
      by_cases hr : room.roomId = rid
      · subst hr; rw [hl] at h; exact absurd h (by simp)
      · exact ⟨s, by simp [getRoomSession, hl, lookupEntry_setEntry, hr, h], rfl⟩

theorem sid_preserved_refreshRoom (c : MatrixClient) (m : ManagerState)
    (room : Room) (rid : String) (s : MatrixRTCSession)
    (h : lookupEntry m.roomSessions rid = some s) :
    ∃ s2, lookupEntry (refreshRoom c m room).1.roomSessions rid = some s2 ∧
      s2.sid = s.sid := by
  by_cases hr : room.roomId = rid
  · subst hr
    refine ⟨{ (getRoomSession c m room).1 with
        memberships := c.stateMemberships room.roomId }, ?_, ?_⟩
    · simp [refreshRoom, lookupEntry_setEntry]
    · simp [getRoomSession, h]
  · obtain ⟨s2, hs2, hsid⟩ := sid_preserved_getRoomSession c m room rid s h
    exact ⟨s2, by simp [refreshRoom, lookupEntry_setEntry, hr, hs2], hsid⟩

theorem sid_preserved_consume (c : MatrixClient) (m : ManagerState)
    (e : MatrixEvent) (b : Bool) (rid : String) (s : MatrixRTCSession)
    (h : lookupEntry m.roomSessions rid = some s) :
    ∃ s2,
      lookupEntry (consumeCallEncryptionEvent c m e b).1.roomSessions rid = some s2 ∧
        s2.sid = s.sid := by
  unfold consumeCallEncryptionEvent
  by_cases hd : e.isDecryptionFailure b = true
  · cases b <;> simp [hd] <;> exact ⟨s, h, rfl⟩
  · simp only [Bool.not_eq_true] at hd
    simp only [hd]
    by_cases ht : e.getType ≠ callEncryptionKeysType
    · simp [ht]; exact ⟨s, h, rfl⟩
    · simp only [ht, if_false, ite_false, reduceIte]
      cases hroom : c.getRoom e.getRoomId with
      | none => simp [ht, hroom]; exact ⟨s, h, rfl⟩
      | some room =>
          simp only [ht, hroom, reduceIte]
          exact sid_preserved_getRoomSession c m room rid s h

theorem sid_preserved_applyOp (m : ManagerState) (op : RunOp) (rid : String)
    (s : MatrixRTCSession) (h : lookupEntry m.roomSessions rid = some s) :
    ∃ s2, lookupEntry (applyOp m op).roomSessions rid = some s2 ∧ s2.sid = s.sid := by
  cases op with
  | getSession c room => exact sid_preserved_getRoomSession c m room rid s h
  | roomAppeared c room => exact sid_preserved_refreshRoom c m room rid s h
  | roomStateEvent c e =>
      simp only [applyOp, onRoomState]
      cases hroom : c.getRoom e.getRoomId with
      | none => simp only [hroom]; exact ⟨s, h, rfl⟩
      | some room =>
          by_cases ht : e.getType = groupCallMemberType
          · simpa [hroom, ht] using sid_preserved_refreshRoom c m room rid s h
          · simp only [hroom, ht, if_false]; exact ⟨s, h, rfl⟩
  | timelineEvent c e b => exact sid_preserved_consume c m e b rid s h

theorem sid_preserved_runOps (ops : List RunOp) (m : ManagerState) (rid : String)
    (s : MatrixRTCSession) (h : lookupEntry m.roomSessions rid = some s) :
    ∃ s2, lookupEntry (runOps m ops).roomSessions rid = some s2 ∧ s2.sid = s.sid := by
  induction ops generalizing m s with
  | nil => exact ⟨s, h, rfl⟩
  | cons op rest ih =>
      obtain ⟨s1, hs1, hsid1⟩ := sid_preserved_applyOp m op rid s h
      obtain ⟨s2, hs2, hsid2⟩ := ih (applyOp m op) s1 hs1
      exact ⟨s2, hs2, hsid2.trans hsid1⟩

theorem getRoomSession_of_lookup (c : MatrixClient) (m : ManagerState) (room : Room)
    (s : MatrixRTCSession) (h : lookupEntry m.roomSessions room.roomId = some s) :
    (getRoomSession c m room).1 = s := by
  simp [getRoomSession, h]

/-- Claim C2: identity stability of the creating lookup.  After a first
`getRoomSession` for a room, any sequence of running operations (lookups
and the three event handlers, against arbitrary client views) never
replaces the room's registry entry: a later `getRoomSession` returns the
very same session object (same allocation identity). -/
theorem getRoomSession_identity_stable (c c2 : MatrixClient) (m : ManagerState)
    (room : Room) (ops : List RunOp) :
    ((getRoomSession c2 (runOps (getRoomSession c m room).2.1 ops) room).1).sid =
      ((getRoomSession c m room).1).sid := by
  obtain ⟨s2, hs2, hsid⟩ :=
    sid_preserved_runOps ops (getRoomSession c m room).2.1 room.roomId
      (getRoomSession c m room).1 (lookupEntry_after_getRoomSession c m room)
  rw [getRoomSession_of_lookup c2 _ room s2 hs2, hsid]

end MatrixRTC

namespace MatrixRTC

/-- The warning log lines in a trace. -/
def warnCount (tr : List Effect) : Nat :=
  (tr.filter fun eff => match eff with | .logWarn => true | _ => false).length

/-- The retry-scheduling effects of a trace, in order. -/
def retrySchedules (tr : List Effect) : List Effect :=
  tr.filter fun eff => match eff with | .scheduleRetry _ _ => true | _ => false

/-- Claim C4: the decryption gate.  A first-attempt failure schedules
exactly one retry, with the fixed 1000 ms delay, and dispatches nothing;
a failure on both attempts yields zero dispatches, two warnings and no
further retry; a success (first attempt or retry) on a control-type event
in a known room yields exactly one `onCallEncryption` dispatch.  No
notification is ever emitted by the gate. -/
theorem decryption_gate_spec (c : MatrixClient) (m : ManagerState) (e : MatrixEvent) :
    dispatchCount (consumeCallEncryptionEvent c m e false).2 =
      (if !e.failsFirst && (e.getType == callEncryptionKeysType)
          && (c.getRoom e.getRoomId).isSome then 1 else 0) ∧
    retrySchedules (consumeCallEncryptionEvent c m e false).2 =
      (if e.failsFirst then [Effect.scheduleRetry 1000 e.eventId] else []) ∧
    retrySchedules (processWithRetry c m e).2 =
      (if e.failsFirst then [Effect.scheduleRetry 1000 e.eventId] else []) ∧
    dispatchCount (processWithRetry c m e).2 =
      (if (!e.failsFirst || !e.failsRetry) && (e.getType == callEncryptionKeysType)
          && (c.getRoom e.getRoomId).isSome then 1 else 0) ∧
    warnCount (processWithRetry c m e).2 =
      (if e.failsFirst && e.failsRetry then 2 else if e.failsFirst then 1 else 0) ∧
    emissionCount (processWithRetry c m e).2 = 0 := by
  by_cases hf : e.failsFirst
  · by_cases hr : e.failsRetry
    · simp [processWithRetry, consumeCallEncryptionEvent, MatrixEvent.isDecryptionFailure,
        hf, hr, retrySchedules, dispatchCount, warnCount, emissionCount, isEmission]
    · by_cases ht : e.getType = callEncryptionKeysType
      · cases hroom : c.getRoom e.getRoomId with
        | none =>
            simp [processWithRetry, consumeCallEncryptionEvent,
              MatrixEvent.isDecryptionFailure, hf, hr, ht, hroom,
              retrySchedules, dispatchCount, warnCount, emissionCount, isEmission]
        | some room =>
            simp [processWithRetry, consumeCallEncryptionEvent,
              MatrixEvent.isDecryptionFailure, hf, hr, ht, hroom,
              retrySchedules, dispatchCount, warnCount, emissionCount, isEmission]
      · simp [processWithRetry, consumeCallEncryptionEvent,
          MatrixEvent.isDecryptionFailure, hf, hr, ht,
          retrySchedules, dispatchCount, warnCount, emissionCount, isEmission]
  · by_cases ht : e.getType = callEncryptionKeysType
    · cases hroom : c.getRoom e.getRoomId with
      | none =>
          simp [processWithRetry, consumeCallEncryptionEvent,
            MatrixEvent.isDecryptionFailure, hf, ht, hroom,
            retrySchedules, dispatchCount, warnCount, emissionCount, isEmission]
      | some room =>
          simp [processWithRetry, consumeCallEncryptionEvent,
            MatrixEvent.isDecryptionFailure, hf, ht, hroom,
            retrySchedules, dispatchCount, warnCount, emissionCount, isEmission]
    · simp [processWithRetry, consumeCallEncryptionEvent,
        MatrixEvent.isDecryptionFailure, hf, ht,
        retrySchedules, dispatchCount, warnCount, emissionCount, isEmission]

end MatrixRTC

namespace MatrixRTC

/-- Claim C5: `stop()` leaves an empty registry, removes the three
event-stream subscriptions, and invokes `stop()` exactly once on every
previously tracked session object (session identities in the registry
being distinct, as allocation guarantees). -/
theorem stop_clears_state (m : ManagerState) (s : Nat)
    (hnd : (m.roomSessions.map fun p => p.2.sid).Nodup)
    (hs : s ∈ m.roomSessions.map fun p => p.2.sid) :
    (stop m).1.roomSessions = [] ∧
    (stop m).1.subRoom = false ∧
    (stop m).1.subTimeline = false ∧
    (stop m).1.subRoomState = false ∧
    List.count (Effect.sessionStop s) (stop m).2 = 1 ∧
    Effect.clientOff StreamKind.room ∈ (stop m).2 ∧
    Effect.clientOff StreamKind.timeline ∈ (stop m).2 ∧
    Effect.clientOff StreamKind.roomState ∈ (stop m).2 := by
  have hinj : Function.Injective Effect.sessionStop := by
    intro a b h
    simpa using h
  refine ⟨rfl, rfl, rfl, rfl, ?_, ?_, ?_, ?_⟩
  · have hmap : (m.roomSessions.map fun p => Effect.sessionStop p.2.sid) =
        List.map Effect.sessionStop (m.roomSessions.map fun p => p.2.sid) := by
      rw [List.map_map]
      rfl
    simp only [stop, List.count_append, hmap,
      List.count_map_of_injective _ _ hinj, List.count_eq_one_of_mem hnd hs]
    simp [List.count_cons, List.count_nil]
  · simp [stop]
  · simp [stop]
  · simp [stop]

def sampleStopState : ManagerState :=
  { roomSessions := [("a", ⟨0, ["x"]⟩), ("b", ⟨1, []⟩)], nextSid := 2
    subRoom := true, subTimeline := true, subRoomState := true }

/-- Concrete witness for the C5 theorem: a registry with two tracked
sessions, checked for the first session identity. -/
theorem stop_clears_state_witness :
    ((sampleStopState.roomSessions.map fun p => p.2.sid).Nodup ∧
      0 ∈ sampleStopState.roomSessions.map fun p => p.2.sid) ∧
    ((stop sampleStopState).1.roomSessions = [] ∧
     (stop sampleStopState).1.subRoom = false ∧
     (stop sampleStopState).1.subTimeline = false ∧
     (stop sampleStopState).1.subRoomState = false ∧
     List.count (Effect.sessionStop 0) (stop sampleStopState).2 = 1 ∧
     Effect.clientOff StreamKind.room ∈ (stop sampleStopState).2 ∧
     Effect.clientOff StreamKind.timeline ∈ (stop sampleStopState).2 ∧
     Effect.clientOff StreamKind.roomState ∈ (stop sampleStopState).2) :=
  ⟨⟨by decide, by decide⟩,
    stop_clears_state sampleStopState 0 (by decide) (by decide)⟩

end MatrixRTC

namespace MatrixRTC

def discoveryClient : MatrixClient :=
  { rooms := [], known := fun rid => rid == "r", stateMemberships := fun _ => ["alice"] }

/-- Claim C3 counterexample: a room first observed via the room-appeared
handler (no prior registry entry) whose session already has one member:
processing DOES emit SessionStarted, refuting the claim that discovery of
pre-existing membership emits nothing. -/
theorem onRoom_discovery_counterexample :
    lookupEntry initialManager.roomSessions "r" = none ∧
    discoveryClient.stateMemberships "r" = ["alice"] ∧
    startedCount (onRoom discoveryClient initialManager ⟨"r"⟩).2 = 1 := by decide

/-- Claim C3 (amended): a room first observed via the room-appeared event
whose session already has at least one member emits exactly one
SessionStarted and no SessionEnded; only the `start()`-time seeding path
registers pre-existing membership without a notification. -/
theorem onRoom_discovery_amended (c : MatrixClient) (m : ManagerState) (room : Room)
    (h1 : lookupEntry m.roomSessions room.roomId = none)
    (h2 : c.stateMemberships room.roomId ≠ []) :
    startedCount (onRoom c m room).2 = 1 ∧ endedCount (onRoom c m room).2 = 0 := by
  have h2l : (c.stateMemberships room.roomId).length > 0 := by
    cases hx : c.stateMemberships room.roomId with
    | nil => exact absurd hx h2
    | cons a l => simp
  simp [onRoom, refreshRoom, getRoomSession, h1, h2l, roomSessionForRoom,
    startedCount, endedCount]

/-- Concrete witness for the amended C3 theorem. -/
theorem onRoom_discovery_amended_witness :
    (lookupEntry initialManager.roomSessions "r2" = none ∧
      discoveryClient.stateMemberships "r2" ≠ []) ∧
    (startedCount (onRoom discoveryClient initialManager ⟨"r2"⟩).2 = 1 ∧
      endedCount (onRoom discoveryClient initialManager ⟨"r2"⟩).2 = 0) :=
  ⟨⟨by decide, by decide⟩,
    onRoom_discovery_amended discoveryClient initialManager ⟨"r2"⟩
      (by decide) (by decide)⟩

def noRoomsClient : MatrixClient :=
  { rooms := [], known := fun _ => false, stateMemberships := fun _ => [] }

def strayMessageEvent : MatrixEvent :=
  { eventId := "e1", etype := "m.room.message", eroomId := "nowhere"
    failsFirst := false, failsRetry := false }

/-- Claim C6 counterexample: a timeline event referencing an unresolvable
room whose type is not the control type is dropped by the type filter
before the room lookup, so no error is logged — refuting the claim that
every unknown-room event logs an error. -/
theorem unknown_room_counterexample :
    noRoomsClient.getRoom strayMessageEvent.getRoomId = none ∧
    consumeCallEncryptionEvent noRoomsClient initialManager strayMessageEvent false =
      (initialManager, []) ∧
    List.count Effect.logError
      (consumeCallEncryptionEvent noRoomsClient initialManager strayMessageEvent false).2
      = 0 := by decide

/-- Claim C6 (amended): an event referencing an unresolvable room causes no
notification, no exception and no registry change, for both the timeline
gate and the room-state handler; the room-state handler always logs the
error, while the timeline gate logs it only when the event decrypted
successfully and is of the control type (other events are dropped by
earlier gates without an error line). -/
theorem unknown_room_resilience (c : MatrixClient) (m : ManagerState)
    (e : MatrixEvent) (b : Bool) (h : c.getRoom e.getRoomId = none) :
    (consumeCallEncryptionEvent c m e b).1 = m ∧
    emissionCount (consumeCallEncryptionEvent c m e b).2 = 0 ∧
    (List.count Effect.logError (consumeCallEncryptionEvent c m e b).2 =
      if !(e.isDecryptionFailure b) && (e.getType == callEncryptionKeysType)
      then 1 else 0) ∧
    (onRoomState c m e).1 = m ∧
    (onRoomState c m e).2 = [Effect.logError] ∧
    emissionCount (onRoomState c m e).2 = 0 := by
  refine ⟨?_, ?_, ?_, by simp [onRoomState, h], by simp [onRoomState, h],
    by simp [onRoomState, h, emissionCount, isEmission]⟩ <;>
  · by_cases hd : e.isDecryptionFailure b = true
    · cases b <;>
        simp [consumeCallEncryptionEvent, hd, emissionCount, isEmission]
    · simp only [Bool.not_eq_true] at hd
      by_cases ht : e.getType = callEncryptionKeysType <;>
        cases b <;>
          simp [consumeCallEncryptionEvent, hd, ht, h, emissionCount, isEmission]

/-- Concrete witness for the amended C6 theorem: a control-type event in an
unknown room, decrypting successfully. -/
theorem unknown_room_resilience_witness :
    (noRoomsClient.getRoom "nowhere" = none) ∧
    ((consumeCallEncryptionEvent noRoomsClient initialManager
        ⟨"e6", callEncryptionKeysType, "nowhere", false, false⟩ false).1 = initialManager ∧
     emissionCount (consumeCallEncryptionEvent noRoomsClient initialManager
        ⟨"e6", callEncryptionKeysType, "nowhere", false, false⟩ false).2 = 0 ∧
     (List.count Effect.logError (consumeCallEncryptionEvent noRoomsClient initialManager
        ⟨"e6", callEncryptionKeysType, "nowhere", false, false⟩ false).2 =
       if !((⟨"e6", callEncryptionKeysType, "nowhere", false, false⟩ :
              MatrixEvent).isDecryptionFailure false) &&
          ((⟨"e6", callEncryptionKeysType, "nowhere", false, false⟩ :
              MatrixEvent).getType == callEncryptionKeysType)
       then 1 else 0) ∧
     (onRoomState noRoomsClient initialManager
        ⟨"e6", callEncryptionKeysType, "nowhere", false, false⟩).1 = initialManager ∧
     (onRoomState noRoomsClient initialManager
        ⟨"e6", callEncryptionKeysType, "nowhere", false, false⟩).2 = [Effect.logError] ∧
     emissionCount (onRoomState noRoomsClient initialManager
        ⟨"e6", callEncryptionKeysType, "nowhere", false, false⟩).2 = 0) :=
  ⟨by decide,
    unknown_room_resilience noRoomsClient initialManager
      ⟨"e6", callEncryptionKeysType, "nowhere", false, false⟩ false (by decide)⟩

end MatrixRTC

namespace MatrixRTC

def memberlessRoomClient : MatrixClient :=
  { rooms := [⟨"r0"⟩], known := fun _ => false, stateMemberships := fun _ => [] }

/-- Claim C7 counterexample: a client knowing exactly one room, with no
members: after `start()` that room has no registry entry, refuting "after
start() returns every room known to the client has a registry entry". -/
theorem start_seeds_counterexample :
    memberlessRoomClient.rooms = [⟨"r0"⟩] ∧
    lookupEntry (start memberlessRoomClient initialManager).1.roomSessions "r0"
      = none := by decide

theorem lookupEntry_seedRooms (c : MatrixClient) (rooms : List Room)
    (m : ManagerState) (rid : String) :
    (lookupEntry (seedRooms c rooms m).roomSessions rid).isSome =
      ((rooms.any fun room => room.roomId == rid &&
          decide ((c.stateMemberships room.roomId).length > 0))
        || (lookupEntry m.roomSessions rid).isSome) := by
  induction rooms generalizing m with
  | nil => simp [seedRooms]
  | cons room rest ih =>
      simp only [seedRooms, roomSessionForRoom, List.any_cons]
      by_cases hm : (c.stateMemberships room.roomId).length > 0
      · rw [if_pos hm, ih]
        by_cases hr : room.roomId = rid
        · subst hr
          simp only [lookupEntry_setEntry, if_pos rfl, if_true,
            Option.isSome_some, Bool.or_true, beq_self_eq_true, Bool.true_and,
            decide_eq_true hm, Bool.true_or]
        · have hrb : (room.roomId == rid) = false := by simp [hr]
          simp [lookupEntry_setEntry, hr, hrb]
      · rw [if_neg hm, ih]
        have hmb : decide ((c.stateMemberships room.roomId).length > 0) = false := by
          simp [hm]
        simp [hmb]

/-- Claim C7 (amended): `start()` synthesizes a session for every room the
client already knows before subscribing to the three live event streams,
but registers only the rooms whose session already has at least one
member; a memberless room receives no entry at start (it is created lazily
on first reference), and no notification is emitted during seeding. -/
theorem start_seeds_member_rooms (c : MatrixClient) (rid : String) :
    (lookupEntry (start c initialManager).1.roomSessions rid).isSome =
      (c.rooms.any fun room => room.roomId == rid &&
        decide ((c.stateMemberships room.roomId).length > 0)) ∧
    emissionCount (start c initialManager).2 = 0 ∧
    (start c initialManager).1.subRoom = true ∧
    (start c initialManager).1.subTimeline = true ∧
    (start c initialManager).1.subRoomState = true := by
  refine ⟨?_, rfl, rfl, rfl, rfl⟩
  have h := lookupEntry_seedRooms c c.rooms initialManager rid
  simpa [initialManager, lookupEntry] using h

def failingMessageEvent : MatrixEvent :=
  { eventId := "e2", etype := "m.room.message", eroomId := "r0"
    failsFirst := true, failsRetry := true }

/-- Claim C8 counterexample: a timeline event whose type is not the control
type but whose decryption fails still schedules the single retry — the
decryption gate runs before the type filter — refuting "no retry is
scheduled" for non-control events. -/
theorem non_control_counterexample :
    failingMessageEvent.getType ≠ callEncryptionKeysType ∧
    Effect.scheduleRetry 1000 "e2" ∈
      (processWithRetry noRoomsClient initialManager failingMessageEvent).2 := by
  decide

/-- Claim C8 (amended): a timeline event whose type is not the control type
never reaches the registry: the registry is unchanged, no session
operation is invoked and no notification is emitted; but the decryption
gate runs first, so such an event whose decryption fails still logs
warnings and schedules the single 1000 ms retry. -/
theorem non_control_frame (c : MatrixClient) (m : ManagerState) (e : MatrixEvent)
    (h : e.getType ≠ callEncryptionKeysType) :
    (processWithRetry c m e).1 = m ∧
    emissionCount (processWithRetry c m e).2 = 0 ∧
    sessionOpCount (processWithRetry c m e).2 = 0 ∧
    retrySchedules (processWithRetry c m e).2 =
      (if e.failsFirst then [Effect.scheduleRetry 1000 e.eventId] else []) := by
  by_cases hf : e.failsFirst <;> by_cases hr : e.failsRetry <;>
    simp [processWithRetry, consumeCallEncryptionEvent,
      MatrixEvent.isDecryptionFailure, hf, hr, h,
      emissionCount, isEmission, sessionOpCount, retrySchedules]

/-- Concrete witness for the amended C8 theorem. -/
theorem non_control_frame_witness :
    (failingMessageEvent.getType ≠ callEncryptionKeysType) ∧
    ((processWithRetry noRoomsClient initialManager failingMessageEvent).1
        = initialManager ∧
     emissionCount (processWithRetry noRoomsClient initialManager
        failingMessageEvent).2 = 0 ∧
     sessionOpCount (processWithRetry noRoomsClient initialManager
        failingMessageEvent).2 = 0 ∧
     retrySchedules (processWithRetry noRoomsClient initialManager
        failingMessageEvent).2 =
       (if failingMessageEvent.failsFirst
        then [Effect.scheduleRetry 1000 failingMessageEvent.eventId] else [])) :=
  ⟨by decide,
    non_control_frame noRoomsClient initialManager failingMessageEvent (by decide)⟩

end MatrixRTC

namespace MatrixRTC

def knownEmptyRoomClient : MatrixClient :=
  { rooms := [], known := fun rid => rid == "r9", stateMemberships := fun _ => [] }

def lateRetryEvent : MatrixEvent :=
  { eventId := "e3", etype := callEncryptionKeysType, eroomId := "r9"
    failsFirst := true, failsRetry := false }

def stoppedManager : ManagerState :=
  (stop { roomSessions := [("r9", ⟨0, ["x"]⟩)], nextSid := 1
          subRoom := true, subTimeline := true, subRoomState := true }).1

/-- Claim C9 counterexample: a pending decryption retry that fires after
`stop()` has returned and succeeds for a control-type event in a known
room re-creates a registry entry through the creating lookup, refuting
"the late retry never re-creates a registry entry". -/
theorem late_retry_counterexample :
    stoppedManager.roomSessions = [] ∧
    (consumeCallEncryptionEvent knownEmptyRoomClient stoppedManager
        lateRetryEvent true).1.roomSessions ≠ [] := by decide

/-- Claim C9 (amended): a retry firing against an empty (post-`stop()`)
registry emits no notification and schedules no further retry; it leaves
the registry empty exactly unless decryption succeeds on the retry for a
control-type event in a room the client resolves — in which case it
re-creates a registry entry via the creating lookup. -/
theorem late_retry_amended (c : MatrixClient) (m : ManagerState) (e : MatrixEvent)
    (h : m.roomSessions = []) :
    emissionCount (consumeCallEncryptionEvent c m e true).2 = 0 ∧
    retrySchedules (consumeCallEncryptionEvent c m e true).2 = [] ∧
    (consumeCallEncryptionEvent c m e true).1.roomSessions.isEmpty =
      !(!e.failsRetry && (e.getType == callEncryptionKeysType) &&
        (c.getRoom e.getRoomId).isSome) := by
  by_cases hr : e.failsRetry
  · simp [consumeCallEncryptionEvent, MatrixEvent.isDecryptionFailure, hr, h,
      emissionCount, isEmission, retrySchedules]
  · by_cases ht : e.getType = callEncryptionKeysType
    · cases hroom : c.getRoom e.getRoomId with
      | none =>
          simp [consumeCallEncryptionEvent, MatrixEvent.isDecryptionFailure,
            hr, ht, hroom, h, emissionCount, isEmission, retrySchedules]
      | some room =>
          simp [consumeCallEncryptionEvent, MatrixEvent.isDecryptionFailure,
            hr, ht, hroom, h, getRoomSession, lookupEntry, setEntry,
            emissionCount, isEmission, retrySchedules]
    · simp [consumeCallEncryptionEvent, MatrixEvent.isDecryptionFailure,
        hr, ht, h, emissionCount, isEmission, retrySchedules]

/-- Concrete witness for the amended C9 theorem: the late retry succeeds in
a known room and the registry is non-empty again. -/
theorem late_retry_amended_witness :
    (stoppedManager.roomSessions = []) ∧
    (emissionCount (consumeCallEncryptionEvent knownEmptyRoomClient stoppedManager
        lateRetryEvent true).2 = 0 ∧
     retrySchedules (consumeCallEncryptionEvent knownEmptyRoomClient stoppedManager
        lateRetryEvent true).2 = [] ∧
     (consumeCallEncryptionEvent knownEmptyRoomClient stoppedManager
        lateRetryEvent true).1.roomSessions.isEmpty =
       !(!lateRetryEvent.failsRetry &&
         (lateRetryEvent.getType == callEncryptionKeysType) &&
         (knownEmptyRoomClient.getRoom lateRetryEvent.getRoomId).isSome)) :=
  ⟨by decide,
    late_retry_amended knownEmptyRoomClient stoppedManager lateRetryEvent (by decide)⟩

end MatrixRTC
